import Mathlib

/-!
Shallow embedding of `src/main.go` of guardian/fastly-logging-creds
(the sub-command revision: `main`, `updateService`, `getActiveService`,
`cloneService`, `updateLoggingCreds`, `createLogConfiguration`,
`getLogConfiguration`, `deleteLogConfiguration`, `activateService`,
`fastlyHTTP`, `checkArgs`).

The remote Fastly API is abstracted as an environment `RemoteEnv` giving,
for each request the program can issue, the decoded outcome that the
HTTP-plus-JSON layer of the Go code would deliver (an `Except String`
value standing for Go's `(value, error)` pairs).  The control flow of each
Go function over those outcomes is translated directly.
-/

namespace FastlyLoggingCreds

/-- The Go struct `Version` (`main.go`): `Active bool`, `Number int`. -/
structure Version where
  active : Bool
  number : Int
deriving Repr, DecidableEq

/-- An HTTP response as seen by `fastlyHTTP` after the transport succeeded:
its status code and the bytes of its body. -/
structure HTTPResponse where
  status : Int
  body : String
deriving Repr, DecidableEq

/-- The Go helper `fastlyHTTP` (`main.go:303-330`), modelled at the point
where a response has been received and its body read: any status other
than 200 yields the formatted error carrying the request URL, the status
and the body; a 200 status yields the body.  (Request-creation and
transport failures are earlier returns abstracted away by `RemoteEnv`.) -/
def fastlyHTTP (path method fastlyKey : String) (resp : HTTPResponse) :
    Except String String :=
  let reqURL := "https://api.fastly.com" ++ path
  if resp.status ≠ 200 then
    Except.error ("Fastly API request for '" ++ reqURL ++ "' failed: " ++
      toString resp.status ++ ", " ++ resp.body)
  else
    Except.ok resp.body
  -- method and fastlyKey only shape the request object in Go; they do not
  -- affect which of the two outcomes is taken.

/-- Decoded outcomes of the remote calls the program can make.  Each field
is the combined result of `fastlyHTTP` plus, where the Go code decodes the
body, `json.Unmarshal`: `Except.error` covers transport errors, non-200
statuses and decode failures alike, exactly the error paths the Go callers
short-circuit on. -/
structure RemoteEnv where
  /-- `GET /service/{id}/version` decoded into `[]Version`. -/
  versionList : Except String (List Version)
  /-- `PUT /service/{id}/version/{n}/clone` decoded into `Version`. -/
  cloneResp : Int → Except String Version
  /-- `PUT /service/{id}/version/{n}/activate` (body unused). -/
  activateResp : Int → Except String String
  /-- `GET /service/{id}/version/{n}/logging/s3` raw body. -/
  logConf : Int → Except String String
  /-- `json.Unmarshal` of that body into `[]map[string]string`; a map is
  modelled as an association list. -/
  unmarshalConfs : String → Except String (List (List (String × String)))
  /-- `DELETE /service/{id}/version/{n}/logging/s3/{name}`. -/
  deleteResp : Int → String → Except String String

/-- The loop inside `getActiveService` (`main.go:220-224`): return the
number of the first version marked active, if any. -/
def findActive : List Version → Option Int
  | [] => none
  | v :: rest => if v.active then some v.number else findActive rest

/-- `getActiveService` (`main.go:207-227`): fetch and decode the version
list, return the first active version's number, or the error
`"No active version found."` when none is active. -/
def getActiveService (env : RemoteEnv) : Except String Int :=
  match env.versionList with
  | Except.error e => Except.error e
  | Except.ok data =>
    match findActive data with
    | some n => Except.ok n
    | none => Except.error "No active version found."

/-- `cloneService` (`main.go:229-239`): clone the given version and return
the number parsed from the response. -/
def cloneService (env : RemoteEnv) (versionID : Int) : Except String Int :=
  match env.cloneResp versionID with
  | Except.error e => Except.error e
  | Except.ok data => Except.ok data.number

/-- `activateService` (`main.go:297-301`): activate the given version,
discarding the response body. -/
def activateService (env : RemoteEnv) (versionID : Int) : Except String Unit :=
  match env.activateResp versionID with
  | Except.error e => Except.error e
  | Except.ok _ => Except.ok ()

/-- `getLogConfiguration` (`main.go:264-272`): fetch the raw logging
configuration body for a version. -/
def getLogConfiguration (env : RemoteEnv) (versionID : Int) :
    Except String String :=
  env.logConf versionID

/-- One entry of the trace of remote operations `updateService` performs,
in the order the Go code issues them. -/
inductive Call where
  | getActive : Call
  | clone : Int → Call
  | mutate : Int → Call
  | activate : Int → Call
deriving Repr, DecidableEq

/-- `updateService` (`main.go:187-205`): get the active version, clone it,
run the caller-supplied mutation `fn` on the new version, then activate it;
each step short-circuits on error.  The second component records the
sequence of operations performed (the mutation counts as one `mutate`
entry; what it does inside is the closure's business). -/
def updateService (env : RemoteEnv) (fn : Int → Except String Unit) :
    Except String Unit × List Call :=
  match getActiveService env with
  | Except.error e => (Except.error e, [Call.getActive])
  | Except.ok activeVersion =>
    match cloneService env activeVersion with
    | Except.error e => (Except.error e, [Call.getActive, Call.clone activeVersion])
    | Except.ok newVersion =>
      match fn newVersion with
      | Except.error e =>
        (Except.error e,
         [Call.getActive, Call.clone activeVersion, Call.mutate newVersion])
      | Except.ok _ =>
        match activateService env newVersion with
        | Except.error e =>
          (Except.error e,
           [Call.getActive, Call.clone activeVersion, Call.mutate newVersion,
            Call.activate newVersion])
        | Except.ok _ =>
          (Except.ok (),
           [Call.getActive, Call.clone activeVersion, Call.mutate newVersion,
            Call.activate newVersion])

/-- The closure `describeLogs` passes to `updateService`
(`main.go:129-142`): fetch the logging configuration of the version,
pretty-print it (output only, no further effect), succeed. -/
def describeFn (env : RemoteEnv) : Int → Except String Unit :=
  fun versionID =>
    match getLogConfiguration env versionID with
    | Except.error e => Except.error e
    | Except.ok _ => Except.ok ()

/-- Go map read `m[k]` on a `map[string]string` modelled as an association
list: the value at the key, or `""` when absent. -/
def mapGet (m : List (String × String)) (k : String) : String :=
  match m.find? (fun kv => kv.fst == k) with
  | some kv => kv.snd
  | none => ""

/-- The loop inside `deleteLogConfiguration` (`main.go:286-292`): delete
each endpoint by its `name` field in list order, stopping at the first
failure with an error naming the endpoint and the cause.  The second
component records the names for which a delete call was issued, in order. -/
def deleteLoop (env : RemoteEnv) (versionID : Int) :
    List (List (String × String)) → Except String Unit × List String
  | [] => (Except.ok (), [])
  | c :: rest =>
    match env.deleteResp versionID (mapGet c "name") with
    | Except.error e =>
      (Except.error ("Unable to delete logging service " ++ mapGet c "name" ++
        ": " ++ e), [mapGet c "name"])
    | Except.ok _ =>
      let r := deleteLoop env versionID rest
      (r.fst, mapGet c "name" :: r.snd)

/-- `deleteLogConfiguration` (`main.go:274-295`): fetch the endpoint list
for the version, decode it, then delete each endpoint in order via
`deleteLoop`. -/
def deleteLogConfiguration (env : RemoteEnv) (versionID : Int) :
    Except String Unit × List String :=
  match getLogConfiguration env versionID with
  | Except.error e => (Except.error e, [])
  | Except.ok data =>
    match env.unmarshalConfs data with
    | Except.error e => (Except.error e, [])
    | Except.ok confs => deleteLoop env versionID confs

/-- A form-carrying HTTP request as the Go code assembles it before
handing it to `fastlyHTTP`: path, method, and the `url.Values` form as an
association list in source order. -/
structure FormRequest where
  path : String
  method : String
  form : List (String × String)
deriving Repr, DecidableEq

/-- The request `updateLoggingCreds` (`main.go:241-247`) sends: a PUT to
the named logging endpoint with `access_key` and `secret_key` form
fields.  `fastlyKey` travels in a header, not in the form. -/
def updateLoggingCredsReq (serviceID : String) (versionID : Int)
    (loggingName fastlyKey awsAccessKey awsSecretKey : String) : FormRequest :=
  { path := "/service/" ++ serviceID ++ "/version/" ++ toString versionID ++
      "/logging/s3/" ++ loggingName
  , method := "PUT"
  , form := [("access_key", awsAccessKey), ("secret_key", awsSecretKey)] }

/-- The request `createLogConfiguration` (`main.go:249-262`) sends: a POST
creating an endpoint with fixed `name`, `bucket_name` and `path` fields
and the caller-supplied keys. -/
def createLogConfigurationReq (serviceID : String) (versionID : Int)
    (fastlyKey awsAccessKey awsSecretKey : String) : FormRequest :=
  { path := "/service/" ++ serviceID ++ "/version/" ++ toString versionID ++
      "/logging/s3"
  , method := "POST"
  , form :=
      [ ("name", "s3-logs")
      , ("access_key", awsAccessKey)
      , ("secret_key", awsSecretKey)
      , ("bucket_name", "aws-frontend-logs")
      , ("path", "/fastly/" ++ serviceID) ] }

/-- The values of the three registered flags after
`flag.CommandLine.Parse` (`main.go:97-102`); defaults are `""`, `""` and
`"s3-logs"`. -/
structure Flags where
  serviceID : String
  awsAccessKey : String
  loggingName : String
deriving Repr, DecidableEq

/-- The flag values before any command-line argument overrides them. -/
def defaultFlags : Flags :=
  { serviceID := "", awsAccessKey := "", loggingName := "s3-logs" }

/-- The names of the flags registered in `main` (`main.go:97-99`); no flag
exists for the AWS secret key or the Fastly key. -/
def flagNames : List String := ["serviceID", "awsAccessKey", "loggingName"]

/-- The two environment variables `main` reads (`main.go:105-106`); an
unset variable reads as `""` in Go. -/
structure ProcEnv where
  awsSecretKey : String
  fastlyKey : String
deriving Repr, DecidableEq

/-- `checkArgs` (`main.go:158-165`): `flag.VisitAll` walks the registered
flags in lexicographical name order (awsAccessKey, loggingName, serviceID)
and exits with a message naming the first flag whose value is empty.
`some msg` models `os.Exit(1)` after printing `msg`; `none` means the
program proceeds.  Only flags are inspected: the environment variables are
read after this call and never checked. -/
def checkArgs (f : Flags) : Option String :=
  if f.awsAccessKey = "" then some "Missing required arg 'awsAccessKey'."
  else if f.loggingName = "" then some "Missing required arg 'loggingName'."
  else if f.serviceID = "" then some "Missing required arg 'serviceID'."
  else none

/-- What `main` does up to the command dispatch: run `checkArgs` on the
parsed flags, then read the two environment variables and proceed.  No
HTTP request is issued before this point. -/
inductive StartupOutcome where
  | exitMissing : String → StartupOutcome
  | proceed : String → String → StartupOutcome
deriving Repr, DecidableEq

/-- The start of `main` (`main.go:101-108`) after flag parsing: exit on
the first empty flag, otherwise carry the environment values forward. -/
def mainStartup (f : Flags) (env : ProcEnv) : StartupOutcome :=
  match checkArgs f with
  | some msg => StartupOutcome.exitMissing msg
  | none => StartupOutcome.proceed env.awsSecretKey env.fastlyKey

/-- Go slice expression `xs[low:]` where `xs` has `cap = len` (as
`os.Args` does): defined only when `low ≤ len(xs)`, a runtime panic
otherwise. -/
def goSliceFrom (xs : List String) (low : Nat) : Option (List String) :=
  if low ≤ xs.length then some (xs.drop low) else none

/-- What `main` (`main.go:96-120`) does with `os.Args`: either a runtime
panic from an out-of-bounds access, or the dispatch on the sub-command
`os.Args[1]` with flag arguments `os.Args[2:]`. -/
inductive MainStart where
  | panicked : String → MainStart
  | dispatch : String → List String → MainStart
deriving Repr, DecidableEq

/-- The argument accesses of `main` in source order:
`flag.CommandLine.Parse(os.Args[2:])` (`main.go:102`) first, then the
switch on `os.Args[1]` (`main.go:108`). -/
def mainStart (args : List String) : MainStart :=
  match goSliceFrom args 2 with
  | none => MainStart.panicked "runtime error: slice bounds out of range"
  | some flagArgs =>
    match args[1]? with
    | none => MainStart.panicked "runtime error: index out of range"
    | some cmd => MainStart.dispatch cmd flagArgs

/-- The form-carrying requests issued under each sub-command of `main`
(`main.go:108-119`): `rotate-creds` wires the flags and environment into
`updateLoggingCreds` (`main.go:122-127`), `create` into
`createLogConfiguration` (`main.go:151-156`); `describe` and `delete` send
no form bodies. -/
def commandFormRequests (cmd : String) (f : Flags) (env : ProcEnv)
    (versionID : Int) : List FormRequest :=
  if cmd = "rotate-creds" then
    [updateLoggingCredsReq f.serviceID versionID f.loggingName env.fastlyKey
      f.awsAccessKey env.awsSecretKey]
  else if cmd = "create" then
    [createLogConfigurationReq f.serviceID versionID env.fastlyKey
      f.awsAccessKey env.awsSecretKey]
  else []

/-- A remote on which every step of a run succeeds: one active version 5,
clone returns version 6, the logging configuration reads back, activation
succeeds. -/
def envA : RemoteEnv :=
  { versionList := Except.ok [Version.mk true 5]
  , cloneResp := fun _ => Except.ok (Version.mk false 6)
  , activateResp := fun _ => Except.ok ""
  , logConf := fun _ => Except.ok "[]"
  , unmarshalConfs := fun _ => Except.ok []
  , deleteResp := fun _ _ => Except.ok "" }

/-- A remote whose version-list fetch fails. -/
def envErr : RemoteEnv :=
  { versionList := Except.error "boom"
  , cloneResp := fun _ => Except.error "boom"
  , activateResp := fun _ => Except.error "boom"
  , logConf := fun _ => Except.error "boom"
  , unmarshalConfs := fun _ => Except.error "boom"
  , deleteResp := fun _ _ => Except.error "boom" }

/-- A remote with two logging endpoints named a and b on which deleting a
succeeds and deleting b fails. -/
def envDel : RemoteEnv :=
  { versionList := Except.ok [Version.mk true 1]
  , cloneResp := fun _ => Except.ok (Version.mk false 2)
  , activateResp := fun _ => Except.ok ""
  , logConf := fun _ => Except.ok "confsbody"
  , unmarshalConfs := fun _ =>
      Except.ok [[("name", "a")], [("name", "b")]]
  , deleteResp := fun _ n => if n = "a" then Except.ok "" else Except.error "boom" }

/-- `findActive` returns the number of the first version that the filter
by `active` keeps. -/
theorem findActive_eq_filter_head (data : List Version) :
    findActive data =
      ((data.filter (fun v => v.active)).head?).map (fun v => v.number) := by
  induction data with
  | nil => rfl
  | cons v rest ih =>
    by_cases hv : v.active
    · simp [findActive, List.filter_cons, hv]
    · simp [findActive, List.filter_cons, hv, ih]

/-- C2: for every version list the remote returns, if exactly one entry is
active then `getActiveService` returns that entry's number without error,
and if no entry is active it fails with the error
`"No active version found."`. -/
theorem getActiveService_spec (env : RemoteEnv) (data : List Version)
    (v : Version) (h : env.versionList = Except.ok data) :
    (data.filter (fun x => x.active) = [v] →
      getActiveService env = Except.ok v.number)
    ∧ (data.filter (fun x => x.active) = [] →
      getActiveService env = Except.error "No active version found.") := by
  constructor
  · intro hf
    simp [getActiveService, h, findActive_eq_filter_head, hf]
  · intro hf
    simp [getActiveService, h, findActive_eq_filter_head, hf]

/-- C2 witness: on the remote `envA`, whose version list is exactly one
active version 5, `getActiveService` returns 5. -/
theorem getActiveService_spec_witness :
    getActiveService envA = Except.ok (5 : Int) :=
  (getActiveService_spec envA [Version.mk true 5] (Version.mk true 5) rfl).1
    (by decide)

/-- C5: `fastlyHTTP` turns any response whose status is not 200 into the
error string carrying the request URL, the status and the body, with no
case distinction among non-200 statuses, and yields the body exactly when
the status is 200. -/
theorem fastlyHTTP_spec (path method fastlyKey : String) (resp : HTTPResponse) :
    (resp.status ≠ 200 →
      fastlyHTTP path method fastlyKey resp =
        Except.error ("Fastly API request for '" ++
          ("https://api.fastly.com" ++ path) ++ "' failed: " ++
          toString resp.status ++ ", " ++ resp.body))
    ∧ (resp.status = 200 →
      fastlyHTTP path method fastlyKey resp = Except.ok resp.body) := by
  constructor
  · intro h
    simp [fastlyHTTP, h]
  · intro h
    simp [fastlyHTTP, h]

/-- C5 witness: a 404 response on the version-list path becomes the
formatted error, at concrete inputs. -/
theorem fastlyHTTP_spec_witness :
    fastlyHTTP "/service/s/version" "GET" "key" (HTTPResponse.mk 404 "bad") =
      Except.error ("Fastly API request for '" ++
        ("https://api.fastly.com" ++ "/service/s/version") ++ "' failed: " ++
        toString (404 : Int) ++ ", " ++ "bad") :=
  (fastlyHTTP_spec "/service/s/version" "GET" "key"
    (HTTPResponse.mk 404 "bad")).1 (by decide)

/-- C3: for every mutation closure, if an earlier step of `updateService`
fails — the active-version fetch, the clone, or the mutation itself — then
`updateService` returns that first error, the trace stops at the failing
step, and no activation call is ever made. -/
theorem updateService_short_circuits (env : RemoteEnv)
    (fn : Int → Except String Unit) (e : String) :
    (getActiveService env = Except.error e →
      updateService env fn = (Except.error e, [Call.getActive])
      ∧ ∀ v, Call.activate v ∉ (updateService env fn).2)
    ∧ (∀ a, getActiveService env = Except.ok a →
      cloneService env a = Except.error e →
      updateService env fn = (Except.error e, [Call.getActive, Call.clone a])
      ∧ ∀ v, Call.activate v ∉ (updateService env fn).2)
    ∧ (∀ a n, getActiveService env = Except.ok a →
      cloneService env a = Except.ok n → fn n = Except.error e →
      updateService env fn =
        (Except.error e, [Call.getActive, Call.clone a, Call.mutate n])
      ∧ ∀ v, Call.activate v ∉ (updateService env fn).2) := by
  refine ⟨?_, ?_, ?_⟩
  · intro h
    have hu : updateService env fn = (Except.error e, [Call.getActive]) := by
      simp [updateService, h]
    refine ⟨hu, ?_⟩
    intro v
    rw [hu]
    simp
  · intro a ha hc
    have hu : updateService env fn =
        (Except.error e, [Call.getActive, Call.clone a]) := by
      simp [updateService, ha, hc]
    refine ⟨hu, ?_⟩
    intro v
    rw [hu]
    simp
  · intro a n ha hc hf
    have hu : updateService env fn =
        (Except.error e, [Call.getActive, Call.clone a, Call.mutate n]) := by
      simp [updateService, ha, hc, hf]
    refine ⟨hu, ?_⟩
    intro v
    rw [hu]
    simp

/-- C3 witness: on the remote `envErr`, whose version-list fetch fails,
`updateService` returns that error having performed only the
active-version fetch. -/
theorem updateService_short_circuits_witness :
    updateService envErr (fun _ => Except.ok ()) =
      (Except.error "boom", [Call.getActive]) :=
  ((updateService_short_circuits envErr (fun _ => Except.ok ()) "boom").1
    rfl).1

/-- C7: for every run of `updateService`, the clone call targets exactly
the version number `getActiveService` returned (it appears in the trace,
and no other version is ever cloned), and when the remote clone endpoint
answers with a version whose number differs from its input, the mutation
is invoked on exactly that parsed number, distinct from the active
version. -/
theorem updateService_clone_targets_active (env : RemoteEnv)
    (fn : Int → Except String Unit) :
    (∀ a, getActiveService env = Except.ok a →
      Call.clone a ∈ (updateService env fn).2
      ∧ ∀ x, Call.clone x ∈ (updateService env fn).2 → x = a)
    ∧ (∀ a v, getActiveService env = Except.ok a →
      env.cloneResp a = Except.ok v → v.number ≠ a →
      Call.mutate v.number ∈ (updateService env fn).2
      ∧ (∀ x, Call.mutate x ∈ (updateService env fn).2 → x = v.number)
      ∧ v.number ≠ a) := by
  constructor
  · intro a ha
    unfold updateService
    rw [ha]
    cases hc : cloneService env a with
    | error e => simp [hc]
    | ok n =>
      cases hf : fn n with
      | error e => simp [hc, hf]
      | ok u =>
        cases hact : activateService env n with
        | error e2 => simp [hc, hf, hact]
        | ok u2 => simp [hc, hf, hact]
  · intro a v ha hcr hne
    have hc : cloneService env a = Except.ok v.number := by
      simp [cloneService, hcr]
    unfold updateService
    rw [ha]
    cases hf : fn v.number with
    | error e => simpa [hc, hf] using hne
    | ok u =>
      cases hact : activateService env v.number with
      | error e2 => simpa [hc, hf, hact] using hne
      | ok u2 => simpa [hc, hf, hact] using hne

/-- C7 witness: on the remote `envA` (active version 5, clone answers
version 6), the clone call targets 5 and the mutation runs on 6. -/
theorem updateService_clone_targets_active_witness :
    Call.clone 5 ∈ (updateService envA (fun _ => Except.ok ())).2
    ∧ Call.mutate 6 ∈ (updateService envA (fun _ => Except.ok ())).2 :=
  ⟨((updateService_clone_targets_active envA (fun _ => Except.ok ())).1
      5 rfl).1,
   ((updateService_clone_targets_active envA (fun _ => Except.ok ())).2
      5 (Version.mk false 6) rfl rfl (by decide)).1⟩

/-- C1 evidence: on the remote `envA` every step succeeds, and a run of
the describe strategy — which only reads the logging configuration —
still ends with an activation call on the cloned version 6, contradicting
the claim that a successful describe run never activates. -/
theorem describe_run_activates_clone :
    updateService envA (describeFn envA) =
      (Except.ok (),
       [Call.getActive, Call.clone 5, Call.mutate 6, Call.activate 6]) := by
  rfl

/-- When every delete call succeeds, `deleteLoop` issues one call per
endpoint, in list order. -/
theorem deleteLoop_all_ok (env : RemoteEnv) (versionID : Int)
    (confs : List (List (String × String)))
    (h : ∀ c ∈ confs, ∃ b, env.deleteResp versionID (mapGet c "name") = Except.ok b) :
    deleteLoop env versionID confs =
      (Except.ok (), confs.map (fun c => mapGet c "name")) := by
  induction confs with
  | nil => rfl
  | cons c rest ih =>
    obtain ⟨b, hb⟩ := h c (by simp)
    have hrest := ih (fun c2 hc2 => h c2 (by simp [hc2]))
    simp [deleteLoop, hb, hrest]

/-- When the first failing delete call is the one for `c`, `deleteLoop`
issues calls only for the endpoints before `c` and for `c` itself, and
returns the error naming `c` and the cause. -/
theorem deleteLoop_first_error (env : RemoteEnv) (versionID : Int)
    (pre : List (List (String × String))) (c : List (String × String))
    (post : List (List (String × String))) (e : String)
    (hpre : ∀ c2 ∈ pre, ∃ b, env.deleteResp versionID (mapGet c2 "name") = Except.ok b)
    (hc : env.deleteResp versionID (mapGet c "name") = Except.error e) :
    deleteLoop env versionID (pre ++ c :: post) =
      (Except.error ("Unable to delete logging service " ++ mapGet c "name" ++
        ": " ++ e),
       pre.map (fun c2 => mapGet c2 "name") ++ [mapGet c "name"]) := by
  induction pre with
  | nil => simp [deleteLoop, hc]
  | cons p rest ih =>
    obtain ⟨b, hb⟩ := hpre p (by simp)
    have hrest := ih (fun c2 h2 => hpre c2 (by simp [h2]))
    simp [deleteLoop, hb, hrest]

/-- C4: for every endpoint list the remote returns for the draft version,
`deleteLogConfiguration` issues exactly one delete call per endpoint name
in list order when all succeed, and when the delete for endpoint `c`
fails after all endpoints before it succeeded, it stops there — issuing no
calls for the endpoints after `c` — and returns the error naming `c` and
the underlying cause. -/
theorem deleteLogConfiguration_spec (env : RemoteEnv) (versionID : Int)
    (raw : String) (confs : List (List (String × String)))
    (hraw : getLogConfiguration env versionID = Except.ok raw)
    (hconfs : env.unmarshalConfs raw = Except.ok confs) :
    ((∀ c ∈ confs, ∃ b, env.deleteResp versionID (mapGet c "name") = Except.ok b) →
      deleteLogConfiguration env versionID =
        (Except.ok (), confs.map (fun c => mapGet c "name")))
    ∧ (∀ pre c post e, confs = pre ++ c :: post →
      (∀ c2 ∈ pre, ∃ b, env.deleteResp versionID (mapGet c2 "name") = Except.ok b) →
      env.deleteResp versionID (mapGet c "name") = Except.error e →
      deleteLogConfiguration env versionID =
        (Except.error ("Unable to delete logging service " ++ mapGet c "name" ++
          ": " ++ e),
         pre.map (fun c2 => mapGet c2 "name") ++ [mapGet c "name"])) := by
  have hunfold : deleteLogConfiguration env versionID = deleteLoop env versionID confs := by
    simp [deleteLogConfiguration, hraw, hconfs]
  constructor
  · intro hall
    rw [hunfold]
    exact deleteLoop_all_ok env versionID confs hall
  · intro pre c post e hsplit hpre hc
    rw [hunfold, hsplit]
    exact deleteLoop_first_error env versionID pre c post e hpre hc

/-- C4 witness: on the remote `envDel` (endpoints a and b, deleting a
succeeds, deleting b fails), the run issues the two calls in order and
stops with the error naming b and the cause. -/
theorem deleteLogConfiguration_spec_witness :
    deleteLogConfiguration envDel 2 =
      (Except.error ("Unable to delete logging service " ++
        mapGet [("name", "b")] "name" ++ ": " ++ "boom"),
       [[("name", "a")]].map (fun c2 => mapGet c2 "name") ++
         [mapGet [("name", "b")] "name"]) :=
  (deleteLogConfiguration_spec envDel 2 "confsbody"
    [[("name", "a")], [("name", "b")]] rfl rfl).2
    [[("name", "a")]] [("name", "b")] [] "boom" rfl
    (by
      intro c2 hc2
      simp only [List.mem_singleton] at hc2
      subst hc2
      exact ⟨"", rfl⟩)
    rfl

/-- C6 evidence: with all three flags supplied but the environment
variable holding the AWS secret key unset (read as the empty string),
`main` passes `checkArgs` — which inspects only the registered flags — and
proceeds toward the HTTP-issuing dispatch instead of terminating with a
message naming the missing input. -/
theorem missing_env_not_checked :
    mainStartup
      { serviceID := "sid", awsAccessKey := "AK", loggingName := "s3-logs" }
      { awsSecretKey := "", fastlyKey := "FK" } =
      StartupOutcome.proceed "" "FK" := by
  rfl

/-- C8: every creation request built by `createLogConfiguration` carries
exactly the fixed defaults for name, bucket and path — the path being
`"/fastly/"` followed by the service ID — together with the
caller-supplied access and secret keys, and no other form fields. -/
theorem createLogConfiguration_form_fields (serviceID : String)
    (versionID : Int) (fastlyKey awsAccessKey awsSecretKey : String) :
    mapGet (createLogConfigurationReq serviceID versionID fastlyKey
      awsAccessKey awsSecretKey).form "name" = "s3-logs"
    ∧ mapGet (createLogConfigurationReq serviceID versionID fastlyKey
      awsAccessKey awsSecretKey).form "bucket_name" = "aws-frontend-logs"
    ∧ mapGet (createLogConfigurationReq serviceID versionID fastlyKey
      awsAccessKey awsSecretKey).form "path" = "/fastly/" ++ serviceID
    ∧ mapGet (createLogConfigurationReq serviceID versionID fastlyKey
      awsAccessKey awsSecretKey).form "access_key" = awsAccessKey
    ∧ mapGet (createLogConfigurationReq serviceID versionID fastlyKey
      awsAccessKey awsSecretKey).form "secret_key" = awsSecretKey
    ∧ (createLogConfigurationReq serviceID versionID fastlyKey
      awsAccessKey awsSecretKey).form.map (fun kv => kv.fst) =
        ["name", "access_key", "secret_key", "bucket_name", "path"] := by
  refine ⟨rfl, rfl, rfl, rfl, rfl, rfl⟩

/-- C9: the program registers exactly the flags serviceID, awsAccessKey
and loggingName — none for the AWS secret key — and in every
form-carrying request any sub-command issues, the `secret_key` field is
exactly the value of the AWS_SECRET_KEY environment variable; hence two
runs with the same environment but different flag values send identical
`secret_key` values. -/
theorem secret_key_only_from_env :
    flagNames = ["serviceID", "awsAccessKey", "loggingName"]
    ∧ (∀ cmd f env versionID req,
        req ∈ commandFormRequests cmd f env versionID →
        mapGet req.form "secret_key" = env.awsSecretKey)
    ∧ (∀ cmd f1 f2 env versionID,
        (commandFormRequests cmd f1 env versionID).map
          (fun r => mapGet r.form "secret_key") =
        (commandFormRequests cmd f2 env versionID).map
          (fun r => mapGet r.form "secret_key")) := by
  refine ⟨rfl, ?_, ?_⟩
  · intro cmd f env versionID req hreq
    by_cases h1 : cmd = "rotate-creds"
    · simp only [commandFormRequests, h1, if_pos, List.mem_singleton] at hreq
      subst hreq
      rfl
    · by_cases h2 : cmd = "create"
      · subst h2
        rw [commandFormRequests, if_neg h1, if_pos rfl] at hreq
        simp only [List.mem_singleton] at hreq
        subst hreq
        rfl
      · simp [commandFormRequests, h1, h2] at hreq
  · intro cmd f1 f2 env versionID
    by_cases h1 : cmd = "rotate-creds"
    · simp [commandFormRequests, h1, updateLoggingCredsReq, mapGet]
    · by_cases h2 : cmd = "create"
      · simp [commandFormRequests, h1, h2, createLogConfigurationReq, mapGet]
      · simp [commandFormRequests, h1, h2]

/-- C9 witness: under the rotate-creds sub-command at concrete flag and
environment values, the request's `secret_key` field is the environment's
AWS secret key. -/
theorem secret_key_only_from_env_witness :
    mapGet (updateLoggingCredsReq "sid" 7 "s3-logs" "FK" "AK" "SECRET").form
      "secret_key" = "SECRET" :=
  secret_key_only_from_env.2.1 "rotate-creds"
    { serviceID := "sid", awsAccessKey := "AK", loggingName := "s3-logs" }
    { awsSecretKey := "SECRET", fastlyKey := "FK" } 7
    (updateLoggingCredsReq "sid" 7 "s3-logs" "FK" "AK" "SECRET")
    (by simp [commandFormRequests])

/-- C10: when the process is started with no sub-command argument
(`os.Args` of length 1), the slice expression `os.Args[2:]` in `main` is
out of bounds and the program panics at runtime, never reaching the
dispatch that would print the message about providing a valid command. -/
theorem main_no_subcommand_panics (args : List String)
    (h : args.length = 1) :
    mainStart args =
      MainStart.panicked "runtime error: slice bounds out of range" := by
  simp [mainStart, goSliceFrom, h]

/-- C10 witness: invoking the program with only its own name panics. -/
theorem main_no_subcommand_panics_witness :
    mainStart ["fastly-logging-creds"] =
      MainStart.panicked "runtime error: slice bounds out of range" :=
  main_no_subcommand_panics ["fastly-logging-creds"] rfl

end FastlyLoggingCreds
